import Mathlib

/-!
# Verification of the `muelsyse` modal-editor core

Shallow embedding of the editor core found in `src/codebase/ch2/src/editor.rs`
(the status-line variant; `src/codebase/ch1/main.rs` is the same core minus the
status line and the `NewLine` action, and its dispatcher and state machine are
textually identical on the shared parts).

Modelling conventions:
* Rust `u16` coordinates and sizes are modelled as `Nat`.  Where the source
  performs an unchecked `+= 1` on a `u16`, the embedding applies
  `u16_succ`, i.e. `(n + 1) % 65536`: with overflow checks disabled
  (release profile) Rust wraps the value modulo 2^16, and with checks enabled
  (debug profile) the same increment aborts, so under either build profile the
  value `n + 1` is not produced when `n = 65535`.
  Rust `saturating_sub(1)` on `u16` coincides with truncated `Nat`
  subtraction `n - 1` on values below 2^16.
* The `u16` subtractions in `draw_statusline` are modelled with a checked
  subtraction returning `Option`: `none` marks an underflow, which aborts a
  debug build (and in a release build wraps to a huge width, destroying the
  layout either way).
* Side effects queued on `stdout` are reified as an explicit `Effect` trace.
* `Result<_, anyhow::Error>` return types are modelled with `Except String`.
-/

namespace Muelsyse

/-- `enum Mode { Normal, Insert }` from `editor.rs`. -/
inductive Mode : Type
  | Normal
  | Insert
  deriving DecidableEq, Repr

/-- `crossterm::cursor::SetCursorStyle` values used by the editor. -/
inductive CursorStyle : Type
  | SteadyBlock
  | BlinkingBar
  deriving DecidableEq, Repr

/-- `Mode::get_cursor_style`. -/
def Mode.get_cursor_style : Mode → CursorStyle
  | .Normal => .SteadyBlock
  | .Insert => .BlinkingBar

/-- `impl Display for Mode` (second variant): the mode label. -/
def Mode.display : Mode → String
  | .Normal => "NORMAL"
  | .Insert => "INSERT"

/-- `enum Action` from `editor.rs` (the `ch1` variant lacks `NewLine`). -/
inductive Action : Type
  | Quit
  | ChangeMode (m : Mode)
  | MoveUp
  | MoveDown
  | MoveLeft
  | MoveRight
  | AddChar (c : Char)
  | NewLine
  deriving DecidableEq, Repr

/-- The `crossterm::event::KeyCode`s the dispatcher distinguishes; `Other`
stands for every remaining key code (function keys, Tab, Backspace, ...),
all of which fall into the `_ => Ok(None)` arm. -/
inductive KeyCode : Type
  | Esc
  | Enter
  | Up
  | Down
  | Left
  | Right
  | Char (c : Char)
  | Other
  deriving DecidableEq, Repr

/-- `crossterm::event::Event`: a key event carrying a key code, or one of the
non-key events (resize, mouse, paste, focus), which the dispatcher drops. -/
inductive Event : Type
  | Key (code : KeyCode)
  | Resize (w h : Nat)
  | Mouse
  | Paste (s : String)
  | FocusGained
  | FocusLost
  deriving DecidableEq, Repr

/-- `true` exactly on `Event::Key(_)`. -/
def Event.is_key : Event → Bool
  | .Key _ => true
  | _ => false

/-- `struct Cursor { x: u16, y: u16 }`. -/
structure Cursor : Type where
  x : Nat
  y : Nat
  deriving DecidableEq, Repr

/-- `struct Editor`: current mode, cursor, and the terminal size `(width,
height)` captured once at construction.  The `stdout` handle is modelled by
the explicit `Effect` traces the operations return. -/
structure Editor : Type where
  mode : Mode
  cursor : Cursor
  size : Nat × Nat
  deriving DecidableEq, Repr

/-- `Editor::new` with a given probed terminal size: `Mode::Normal`,
cursor `(0, 0)`. -/
def Editor.new (size : Nat × Nat) : Editor :=
  { mode := .Normal, cursor := { x := 0, y := 0 }, size := size }

/-- One queued terminal side effect (`stdout.queue(...)` / `execute(...)`). -/
inductive Effect : Type
  | EnterAlternateScreen
  | ClearAll
  | SetCursorStyle (s : CursorStyle)
  | MoveTo (x y : Nat)
  | Print (c : Char)
  deriving DecidableEq, Repr

/-- The modulus of Rust's `u16`. -/
def U16_MOD : Nat := 65536

/-- Rust `u16` increment `n += 1`: wraps modulo 2^16 when overflow checks are
off; with checks on the increment of `65535` aborts instead, so in neither
profile does it produce `65536`. -/
def u16_succ (n : Nat) : Nat := (n + 1) % U16_MOD

/-- Result of applying one `Action` in the `run` loop: the next editor state,
the side effects queued during the step, and whether the loop `break`s. -/
structure StepResult : Type where
  editor : Editor
  effects : List Effect
  quit : Bool
  deriving DecidableEq, Repr

/-- The `match action { ... }` body of the `run` loop in `editor.rs`:
applies one action to the editor state, recording queued effects. -/
def applyAction (a : Action) (ed : Editor) : StepResult :=
  match a with
  | .Quit => { editor := ed, effects := [], quit := true }
  | .ChangeMode m =>
      { editor := { ed with mode := m },
        effects := [.SetCursorStyle m.get_cursor_style], quit := false }
  | .MoveUp =>
      { editor := { ed with cursor := { ed.cursor with y := ed.cursor.y - 1 } },
        effects := [], quit := false }
  | .MoveDown =>
      { editor := { ed with cursor := { ed.cursor with y := u16_succ ed.cursor.y } },
        effects := [], quit := false }
  | .MoveLeft =>
      { editor := { ed with cursor := { ed.cursor with x := ed.cursor.x - 1 } },
        effects := [], quit := false }
  | .MoveRight =>
      { editor := { ed with cursor := { ed.cursor with x := u16_succ ed.cursor.x } },
        effects := [], quit := false }
  | .AddChar c =>
      let x1 := u16_succ ed.cursor.x
      let cur :=
        if x1 > ed.size.1 then { x := 0, y := u16_succ ed.cursor.y : Cursor }
        else { x := x1, y := ed.cursor.y : Cursor }
      { editor := { ed with cursor := cur },
        effects := [.MoveTo ed.cursor.x ed.cursor.y, .Print c], quit := false }
  | .NewLine =>
      { editor := { ed with cursor := { x := 0, y := u16_succ ed.cursor.y } },
        effects := [], quit := false }

/-- `Editor::handle_insert_event` (second variant; the first lacks the
`Enter` arm).  `&mut self` is never touched by the body, so the embedding
is a function of the event alone. -/
def handle_insert_event (e : Event) : Except String (Option Action) :=
  match e with
  | .Key k =>
      match k with
      | .Esc => .ok (some (.ChangeMode .Normal))
      | .Char c => .ok (some (.AddChar c))
      | .Up => .ok (some .MoveUp)
      | .Down => .ok (some .MoveDown)
      | .Left => .ok (some .MoveLeft)
      | .Right => .ok (some .MoveRight)
      | .Enter => .ok (some .NewLine)
      | _ => .ok none
  | _ => .ok none

/-- `Editor::handle_normal_event`.  As in the source, `&mut self` is never
touched by the body. -/
def handle_normal_event (e : Event) : Except String (Option Action) :=
  match e with
  | .Key k =>
      match k with
      | .Char 'q' => .ok (some .Quit)
      | .Char 'i' => .ok (some (.ChangeMode .Insert))
      | .Up => .ok (some .MoveUp)
      | .Char 'k' => .ok (some .MoveUp)
      | .Down => .ok (some .MoveDown)
      | .Char 'j' => .ok (some .MoveDown)
      | .Left => .ok (some .MoveLeft)
      | .Char 'h' => .ok (some .MoveLeft)
      | .Right => .ok (some .MoveRight)
      | .Char 'l' => .ok (some .MoveRight)
      | _ => .ok none
  | _ => .ok none

/-- `Editor::handle_event`: dispatch on the current mode.  The source takes
`&mut self`; the returned editor makes the (absent) mutation explicit. -/
def handle_event (ed : Editor) (e : Event) : Editor × Except String (Option Action) :=
  match ed.mode with
  | .Normal => (ed, handle_normal_event e)
  | .Insert => (ed, handle_insert_event e)

/-- The event-processing loop of `Editor::run`, driven by an explicit list of
incoming events in place of the blocking `read()`: classify each event, apply
the resulting action, accumulate the queued effects, and stop at `Quit`
(further events are left unread) or when the event source is exhausted.
The per-iteration `draw` only re-renders state and queues no state-changing
effect; it is modelled separately (`draw_statusline`). -/
def run_events : Editor → List Event → Editor × List Effect
  | ed, [] => (ed, [])
  | ed, e :: es =>
      match (handle_event ed e).2 with
      | .ok (some a) =>
          let r := applyAction a ed
          if r.quit then (r.editor, r.effects)
          else
            let p := run_events r.editor es
            (p.1, r.effects ++ p.2)
      | .ok none => run_events ed es
      | .error _ => (ed, [])

/-- The startup effects of `Editor::run`, before the loop: enter the alternate
screen, clear it, and set the cursor style of the initial mode.
(`enable_raw_mode` is a terminal-mode toggle outside the `stdout` queue and is
not part of the modelled effect trace.) -/
def startup_effects (ed : Editor) : List Effect :=
  [.EnterAlternateScreen, .ClearAll, .SetCursorStyle ed.mode.get_cursor_style]

/-- `Editor::run` on a list of events: startup effects followed by the loop. -/
def run (ed : Editor) (es : List Event) : Editor × List Effect :=
  let p := run_events ed es
  (p.1, startup_effects ed ++ p.2)

/-- Fold a list of actions through the state machine, keeping only the state
(used to phrase properties about sequences of actions). -/
def apply_all (ed : Editor) : List Action → Editor
  | [] => ed
  | a :: rest => apply_all (applyAction a ed).editor rest

/-- The cursor style most recently set by an effect trace, starting from
`init` (`none` = no style ever set).  Later effects win. -/
def trace_style (init : Option CursorStyle) : List Effect → Option CursorStyle
  | [] => init
  | .SetCursorStyle s :: rest => trace_style (some s) rest
  | _ :: rest => trace_style init rest

/-- Digit-accumulating loop for decimal formatting (fuel-based structural
recursion; `fuel > n` always suffices since `n / 10` shrinks each step). -/
def natDecimalCore : Nat → Nat → List Char → List Char
  | 0, _, acc => acc
  | fuel + 1, n, acc =>
      if n < 10 then Char.ofNat (48 + n) :: acc
      else natDecimalCore fuel (n / 10) (Char.ofNat (48 + n % 10) :: acc)

/-- Decimal representation of a natural number, as produced by Rust's
`format!("{}", n)` (`Display` for unsigned integers). -/
def natDecimal (n : Nat) : String := String.mk (natDecimalCore (n + 1) n [])

/-- Checked `u16` subtraction: `none` marks an underflow, which panics in a
debug build (and wraps in release, which equally destroys the layout). -/
def u16_checked_sub (a b : Nat) : Option Nat :=
  if b ≤ a then some (a - b) else none

/-- `format!(" {} ", self.mode)`: the padded mode label. -/
def mode_str (m : Mode) : String := " " ++ m.display ++ " "

/-- `let file = " src/main.rs";`: the fixed placeholder filler label. -/
def file_label : String := " src/main.rs"

/-- `format!(" {}:{}", self.cursor.y + 1, self.cursor.x + 1)`. -/
def pos_str (cur : Cursor) : String :=
  " " ++ natDecimal (cur.y + 1) ++ ":" ++ natDecimal (cur.x + 1)

/-- The powerline separator `"\u{e0b0}"` printed twice by `draw_statusline`:
a single character (one terminal cell; its UTF-8 length does not enter the
width arithmetic, which subtracts the constant 2). -/
def separator : String := ""

/-- `format!("{:<width$}", s, width = w)`: left-align `s`, padding with
spaces up to `w` (never truncating). -/
def pad_left_align (s : String) (w : Nat) : String :=
  s ++ String.mk (List.replicate (w - s.length) ' ')

/-- `Editor::draw_statusline`, reduced to the printed segments: the mode
segment, the filler segment, and the position segment (the two separators
stand between them).  `none` marks a `u16` underflow while computing
`file_width = width - mode_str.len() - pos.len() - 2` or the status-line row
`height - 2`.  All strings whose `len()` enters the arithmetic are ASCII, so
Rust's byte lengths agree with the character counts used here. -/
def draw_statusline (size : Nat × Nat) (m : Mode) (cur : Cursor) :
    Option (String × String × String) :=
  let ms := mode_str m
  let p := pos_str cur
  match u16_checked_sub size.2 2 with
  | none => none
  | some _ =>
      match u16_checked_sub size.1 ms.length with
      | none => none
      | some d1 =>
          match u16_checked_sub d1 p.length with
          | none => none
          | some d2 =>
              match u16_checked_sub d2 2 with
              | none => none
              | some file_width => some (ms, pad_left_align file_label file_width, p)

/-- The spec's end-to-end key sequence: `i`, `h`, `e`, `l`, `l`, `o`, `Esc`, `q`. -/
def hello_events : List Event :=
  [.Key (.Char 'i'), .Key (.Char 'h'), .Key (.Char 'e'), .Key (.Char 'l'),
   .Key (.Char 'l'), .Key (.Char 'o'), .Key .Esc, .Key (.Char 'q')]

/-! ## Helper lemmas -/

lemma natDecimalCore_length : ∀ fuel n acc k, n < fuel → 1 ≤ k → n < 10 ^ k →
    (natDecimalCore fuel n acc).length ≤ k + acc.length := by
  intro fuel
  induction fuel with
  | zero => omega
  | succ fuel ih =>
    intro n acc k hfuel hk hn
    rw [natDecimalCore]
    split
    · simp
      omega
    · rename_i h10
      push_neg at h10
      have hk2 : 2 ≤ k := by
        by_contra hc
        push_neg at hc
        interval_cases k
        · omega
      have hdiv : n / 10 < 10 ^ (k - 1) := by
        rw [Nat.div_lt_iff_lt_mul (by omega)]
        calc n < 10 ^ k := hn
        _ = 10 ^ (k - 1) * 10 := by
              rw [← pow_succ]
              congr 1
              omega
      have hfuel2 : n / 10 < fuel := by
        have : n / 10 < n := Nat.div_lt_self (by omega) (by omega)
        omega
      have := ih (n / 10) (Char.ofNat (48 + n % 10) :: acc) (k - 1) hfuel2 (by omega) hdiv
      simp at this ⊢
      omega

lemma natDecimal_length_le (k n : Nat) (hk : 1 ≤ k) (hn : n < 10 ^ k) :
    (natDecimal n).length ≤ k := by
  have := natDecimalCore_length (n + 1) n [] k (by omega) hk hn
  simpa [natDecimal] using this

lemma pad_left_align_length (s : String) (w : Nat) :
    (pad_left_align s w).length = s.length + (w - s.length) := by
  simp only [pad_left_align, String.length_append]
  have h : (String.mk (List.replicate (w - s.length) ' ')).length = w - s.length := by
    show (List.replicate (w - s.length) ' ').length = w - s.length
    exact List.length_replicate _ _
  omega

lemma pos_str_length_le (cur : Cursor) (hx : cur.x ≤ 65535) (hy : cur.y ≤ 65535) :
    (pos_str cur).length ≤ 12 := by
  have h1 : (natDecimal (cur.y + 1)).length ≤ 5 :=
    natDecimal_length_le 5 _ (by omega) (by norm_num; omega)
  have h2 : (natDecimal (cur.x + 1)).length ≤ 5 :=
    natDecimal_length_le 5 _ (by omega) (by norm_num; omega)
  rw [pos_str]
  rw [String.length_append, String.length_append, String.length_append]
  have h3 : (" " : String).length = 1 := rfl
  have h4 : (":" : String).length = 1 := rfl
  omega

lemma mode_str_length (m : Mode) : (mode_str m).length = 8 := by
  cases m <;> rfl

lemma handle_event_of_normal (ed : Editor) (e : Event) (h : ed.mode = .Normal) :
    handle_event ed e = (ed, handle_normal_event e) := by
  unfold handle_event
  rw [h]

lemma handle_event_of_insert (ed : Editor) (e : Event) (h : ed.mode = .Insert) :
    handle_event ed e = (ed, handle_insert_event e) := by
  unfold handle_event
  rw [h]

lemma handle_normal_event_ok (e : Event) :
    ∃ oa, handle_normal_event e = .ok oa := by
  unfold handle_normal_event
  split
  · split <;> exact ⟨_, rfl⟩
  · exact ⟨_, rfl⟩

lemma handle_insert_event_ok (e : Event) :
    ∃ oa, handle_insert_event e = .ok oa := by
  unfold handle_insert_event
  split
  · split <;> exact ⟨_, rfl⟩
  · exact ⟨_, rfl⟩

lemma trace_style_append (i : Option CursorStyle) (l1 l2 : List Effect) :
    trace_style i (l1 ++ l2) = trace_style (trace_style i l1) l2 := by
  induction l1 generalizing i with
  | nil => rfl
  | cons eff l1 ih => cases eff <;> simp [trace_style, ih]

lemma applyAction_style (a : Action) (ed : Editor) :
    trace_style (some ed.mode.get_cursor_style) (applyAction a ed).effects
      = some ((applyAction a ed).editor.mode.get_cursor_style) := by
  cases a <;> simp [applyAction, trace_style]

lemma run_events_style (ed : Editor) (es : List Event) :
    trace_style (some ed.mode.get_cursor_style) (run_events ed es).2
      = some ((run_events ed es).1.mode.get_cursor_style) := by
  induction es generalizing ed with
  | nil => rfl
  | cons e es ih =>
    rw [run_events]
    cases hres : (handle_event ed e).2 with
    | error s => simp [trace_style]
    | ok oa =>
      cases oa with
      | none => simpa using ih ed
      | some a =>
        simp only
        by_cases hq : (applyAction a ed).quit
        · simp only [hq, if_true]
          exact applyAction_style a ed
        · simp only [hq, Bool.false_eq_true, if_false]
          rw [trace_style_append, applyAction_style]
          exact ih (applyAction a ed).editor

lemma run_events_step (ed : Editor) (e : Event) (es : List Event) (a : Action)
    (h : (handle_event ed e).2 = .ok (some a)) (hq : (applyAction a ed).quit = false) :
    run_events ed (e :: es)
      = ((run_events (applyAction a ed).editor es).1,
         (applyAction a ed).effects ++ (run_events (applyAction a ed).editor es).2) := by
  rw [run_events, h]
  simp [hq]

lemma run_events_stop (ed : Editor) (e : Event) (es : List Event)
    (h : (handle_event ed e).2 = .ok (some .Quit)) :
    run_events ed (e :: es) = (ed, []) := by
  rw [run_events, h]
  simp [applyAction]

lemma u16_succ_small (k : Nat) (hk : k < 65535) : u16_succ k = k + 1 :=
  Nat.mod_eq_of_lt (show k + 1 < 65536 by omega)

/-- Claim C3 is refuted at the maximum `u16` value: applying `MoveDown` with
`y = 65535` does not produce `y + 1 = 65536` — the `u16` increment wraps the
coordinate to `0` (release build; a debug build aborts instead), so unbounded
growth is not available at the maximum representable coordinate. -/
theorem claim_C3_counterexample :
    (applyAction .MoveDown
        { mode := .Normal, cursor := { x := 0, y := 65535 }, size := (80, 24) }).editor.cursor.y
      = 0 ∧ (0 : Nat) ≠ 65535 + 1 := by
  decide

/-- Claim C3, amended to coordinates below the `u16` maximum: for every
editor state with `y < 65535` and `x < 65535`, `MoveDown` always succeeds with
`y = y + 1` and `MoveRight` with `x = x + 1`, with no ceiling below that
representation limit. -/
theorem claim_C3_move_increments (ed : Editor)
    (hy : ed.cursor.y < 65535) (hx : ed.cursor.x < 65535) :
    (applyAction .MoveDown ed).editor.cursor.y = ed.cursor.y + 1 ∧
    (applyAction .MoveRight ed).editor.cursor.x = ed.cursor.x + 1 := by
  constructor
  · simp only [applyAction]
    exact u16_succ_small _ hy
  · simp only [applyAction]
    exact u16_succ_small _ hx

theorem claim_C3_witness :
    (applyAction .MoveDown
        { mode := .Normal, cursor := { x := 2, y := 7 }, size := (80, 24) }).editor.cursor.y = 8 ∧
    (applyAction .MoveRight
        { mode := .Normal, cursor := { x := 2, y := 7 }, size := (80, 24) }).editor.cursor.x = 3 :=
  claim_C3_move_increments
    { mode := .Normal, cursor := { x := 2, y := 7 }, size := (80, 24) } (by decide) (by decide)

/-- Claim C4: for every editor state and every sequence of `MoveUp` actions
applied when `y = 0`, the resulting `y` stays `0`, and for every sequence of
`MoveLeft` actions applied when `x = 0`, the resulting `x` stays `0`:
`saturating_sub` floors the coordinate at `0` and never underflows or wraps. -/
theorem claim_C4_saturating_floor :
    (∀ (ed : Editor) (n : Nat), ed.cursor.y = 0 →
        (apply_all ed (List.replicate n .MoveUp)).cursor.y = 0) ∧
    (∀ (ed : Editor) (n : Nat), ed.cursor.x = 0 →
        (apply_all ed (List.replicate n .MoveLeft)).cursor.x = 0) := by
  constructor
  · intro ed n
    induction n generalizing ed with
    | zero => intro hyp; simpa [apply_all] using hyp
    | succ n ih =>
      intro hyp
      rw [List.replicate_succ, apply_all]
      apply ih
      simp [applyAction, hyp]
  · intro ed n
    induction n generalizing ed with
    | zero => intro hyp; simpa [apply_all] using hyp
    | succ n ih =>
      intro hyp
      rw [List.replicate_succ, apply_all]
      apply ih
      simp [applyAction, hyp]

theorem claim_C4_witness :
    (apply_all { mode := .Normal, cursor := { x := 3, y := 0 }, size := (80, 24) }
        (List.replicate 4 .MoveUp)).cursor.y = 0 ∧
    (apply_all { mode := .Normal, cursor := { x := 0, y := 3 }, size := (80, 24) }
        (List.replicate 4 .MoveLeft)).cursor.x = 0 :=
  ⟨claim_C4_saturating_floor.1 _ 4 rfl, claim_C4_saturating_floor.2 _ 4 rfl⟩

/-- Claim C5: `ChangeMode m` is idempotent in its state effect — applying it
twice in a row yields the same editor state as applying it once — while each
application issues exactly one cursor-style-change side effect (so two
applications issue two style effects, with no coalescing). -/
theorem claim_C5_changeMode_idem (m : Mode) (ed : Editor) :
    (applyAction (.ChangeMode m) (applyAction (.ChangeMode m) ed).editor).editor
      = (applyAction (.ChangeMode m) ed).editor ∧
    (applyAction (.ChangeMode m) ed).effects = [.SetCursorStyle m.get_cursor_style] ∧
    (applyAction (.ChangeMode m) (applyAction (.ChangeMode m) ed).editor).effects
      = [.SetCursorStyle m.get_cursor_style] := by
  refine ⟨?_, rfl, rfl⟩
  rfl

/-- Claim C6: key bindings are mode-scoped with no cross-leak.  In Normal
mode both the Down arrow and `j` dispatch to `MoveDown`; in Insert mode `j`
dispatches to `AddChar 'j'`; and each Normal-mode letter binding
(`q`, `i`, `h`, `j`, `k`, `l`) dispatched in Insert mode yields `AddChar` of
that letter, never its Normal-mode action. -/
theorem claim_C6_mode_scoped :
    (∀ ed : Editor, ed.mode = .Normal →
       (handle_event ed (.Key .Down)).2 = .ok (some .MoveDown) ∧
       (handle_event ed (.Key (.Char 'j'))).2 = .ok (some .MoveDown)) ∧
    (∀ ed : Editor, ed.mode = .Insert →
       (handle_event ed (.Key (.Char 'j'))).2 = .ok (some (.AddChar 'j'))) ∧
    (∀ (ed : Editor) (c : Char), ed.mode = .Insert → c ∈ ['q', 'i', 'h', 'j', 'k', 'l'] →
       (handle_event ed (.Key (.Char c))).2 = .ok (some (.AddChar c)) ∧
       (handle_event ed (.Key (.Char c))).2 ≠ handle_normal_event (.Key (.Char c))) := by
  refine ⟨?_, ?_, ?_⟩
  · intro ed hyp
    rw [handle_event_of_normal ed _ hyp, handle_event_of_normal ed _ hyp]
    exact ⟨rfl, rfl⟩
  · intro ed hyp
    rw [handle_event_of_insert ed _ hyp]
    rfl
  · intro ed c hyp hc
    rw [handle_event_of_insert ed _ hyp]
    simp only [List.mem_cons, List.not_mem_nil, or_false] at hc
    rcases hc with rfl | rfl | rfl | rfl | rfl | rfl
    · exact ⟨rfl, show handle_insert_event (.Key (.Char 'q')) ≠ handle_normal_event (.Key (.Char 'q')) from
        fun hcontra => Action.noConfusion (Option.some.inj (Except.ok.inj hcontra))⟩
    · exact ⟨rfl, show handle_insert_event (.Key (.Char 'i')) ≠ handle_normal_event (.Key (.Char 'i')) from
        fun hcontra => Action.noConfusion (Option.some.inj (Except.ok.inj hcontra))⟩
    · exact ⟨rfl, show handle_insert_event (.Key (.Char 'h')) ≠ handle_normal_event (.Key (.Char 'h')) from
        fun hcontra => Action.noConfusion (Option.some.inj (Except.ok.inj hcontra))⟩
    · exact ⟨rfl, show handle_insert_event (.Key (.Char 'j')) ≠ handle_normal_event (.Key (.Char 'j')) from
        fun hcontra => Action.noConfusion (Option.some.inj (Except.ok.inj hcontra))⟩
    · exact ⟨rfl, show handle_insert_event (.Key (.Char 'k')) ≠ handle_normal_event (.Key (.Char 'k')) from
        fun hcontra => Action.noConfusion (Option.some.inj (Except.ok.inj hcontra))⟩
    · exact ⟨rfl, show handle_insert_event (.Key (.Char 'l')) ≠ handle_normal_event (.Key (.Char 'l')) from
        fun hcontra => Action.noConfusion (Option.some.inj (Except.ok.inj hcontra))⟩

theorem claim_C6_witness :
    (handle_event { mode := .Normal, cursor := { x := 0, y := 0 }, size := (80, 24) }
        (.Key .Down)).2 = .ok (some .MoveDown) ∧
    (handle_event { mode := .Insert, cursor := { x := 0, y := 0 }, size := (80, 24) }
        (.Key (.Char 'j'))).2 = .ok (some (.AddChar 'j')) ∧
    (handle_event { mode := .Insert, cursor := { x := 0, y := 0 }, size := (80, 24) }
        (.Key (.Char 'q'))).2 ≠ handle_normal_event (.Key (.Char 'q')) :=
  ⟨(claim_C6_mode_scoped.1 _ rfl).1, claim_C6_mode_scoped.2.1 _ rfl,
   (claim_C6_mode_scoped.2.2 _ 'q' rfl (by decide)).2⟩

/-- Claim C8: for every mode and every non-key input event (resize, mouse,
paste, focus), the dispatcher returns no action (`Ok(None)`): classification
is total and non-key events are silently dropped, not errors. -/
theorem claim_C8_nonkey_no_action (ed : Editor) (e : Event) (h : e.is_key = false) :
    (handle_event ed e).2 = .ok none := by
  cases hm : ed.mode
  · rw [handle_event_of_normal ed e hm]
    cases e
    · simp [Event.is_key] at h
    all_goals rfl
  · rw [handle_event_of_insert ed e hm]
    cases e
    · simp [Event.is_key] at h
    all_goals rfl

theorem claim_C8_witness :
    (handle_event (Editor.new (80, 24)) (.Resize 100 30)).2 = .ok none ∧
    (handle_event { mode := .Insert, cursor := { x := 3, y := 4 }, size := (80, 24) }
        .Mouse).2 = .ok none :=
  ⟨claim_C8_nonkey_no_action _ _ rfl, claim_C8_nonkey_no_action _ _ rfl⟩

/-- Claim C10: dispatch is pure — `handle_event` leaves the editor state
(mode, cursor, captured size) unchanged, never returns an error, and its
result depends only on the current mode and the event. -/
theorem claim_C10_dispatch_pure (ed : Editor) (e : Event) :
    (handle_event ed e).1 = ed ∧
    (∃ oa, (handle_event ed e).2 = .ok oa) ∧
    (∀ ed' : Editor, ed'.mode = ed.mode →
        (handle_event ed' e).2 = (handle_event ed e).2) := by
  cases hm : ed.mode
  · rw [handle_event_of_normal ed e hm]
    refine ⟨rfl, handle_normal_event_ok e, ?_⟩
    intro ed' hyp
    rw [handle_event_of_normal ed' e hyp]
  · rw [handle_event_of_insert ed e hm]
    refine ⟨rfl, handle_insert_event_ok e, ?_⟩
    intro ed' hyp
    rw [handle_event_of_insert ed' e hyp]

theorem claim_C10_witness :
    (handle_event (Editor.new (80, 24)) (.Key (.Char 'x'))).1 = Editor.new (80, 24) ∧
    (handle_event { mode := .Insert, cursor := { x := 1, y := 1 }, size := (80, 24) }
        (.Key (.Char 'x'))).2
      = (handle_event { mode := .Insert, cursor := { x := 9, y := 9 }, size := (120, 40) }
        (.Key (.Char 'x'))).2 :=
  ⟨(claim_C10_dispatch_pure (Editor.new (80, 24)) (.Key (.Char 'x'))).1,
   (claim_C10_dispatch_pure
      { mode := .Insert, cursor := { x := 9, y := 9 }, size := (120, 40) }
      (.Key (.Char 'x'))).2.2 _ rfl⟩

/-- Claim C1 is refuted at the maximum `u16` column: at cursor `(65535, 5)`
with captured width `80`, the claim predicts `x := x + 1 = 65536 > 80`, hence
a wrap to `(0, 6)`; the code's `u16` increment instead wraps `x` to `0`, the
test `0 > 80` fails, and the cursor lands at `(0, 5)`. -/
theorem claim_C1_counterexample :
    (applyAction (.AddChar 'a')
        { mode := .Insert, cursor := { x := 65535, y := 5 }, size := (80, 24) }).editor.cursor
      = { x := 0, y := 5 } ∧
    ({ x := 0, y := 5 } : Cursor) ≠ { x := 0, y := 5 + 1 } := by
  decide

/-- Claim C1, amended to coordinates below the `u16` maximum: `AddChar c`
queues the write of `c` at the pre-wrap position `(x, y)` and sets
`x := x + 1`, wrapping to `(0, y + 1)` exactly when the new `x` exceeds the
captured terminal width; mode and captured size are untouched.  In
particular `AddChar` at `x = width` wraps, at `x = width - 1` it does not,
and at width 80 with cursor `(80, 5)` it yields `(0, 6)` (see the witness). -/
theorem claim_C1_addChar (ed : Editor) (c : Char)
    (hx : ed.cursor.x < 65535) (hy : ed.cursor.y < 65535) :
    (applyAction (.AddChar c) ed).effects
        = [.MoveTo ed.cursor.x ed.cursor.y, .Print c] ∧
    (ed.cursor.x + 1 > ed.size.1 →
       (applyAction (.AddChar c) ed).editor.cursor = { x := 0, y := ed.cursor.y + 1 }) ∧
    (¬ ed.cursor.x + 1 > ed.size.1 →
       (applyAction (.AddChar c) ed).editor.cursor = { x := ed.cursor.x + 1, y := ed.cursor.y }) ∧
    (applyAction (.AddChar c) ed).editor.mode = ed.mode ∧
    (applyAction (.AddChar c) ed).editor.size = ed.size := by
  have hsx : u16_succ ed.cursor.x = ed.cursor.x + 1 := u16_succ_small _ hx
  have hsy : u16_succ ed.cursor.y = ed.cursor.y + 1 := u16_succ_small _ hy
  refine ⟨rfl, ?_, ?_, ?_, ?_⟩
  · intro hgt
    simp only [applyAction, hsx, hsy]
    rw [if_pos hgt]
  · intro hle
    simp only [applyAction, hsx, hsy]
    rw [if_neg hle]
  · simp only [applyAction]
  · simp only [applyAction]

theorem claim_C1_witness :
    (applyAction (.AddChar 'a')
        { mode := .Insert, cursor := { x := 80, y := 5 }, size := (80, 24) }).editor.cursor
      = { x := 0, y := 6 } ∧
    (applyAction (.AddChar 'a')
        { mode := .Insert, cursor := { x := 80, y := 5 }, size := (80, 24) }).effects
      = [.MoveTo 80 5, .Print 'a'] ∧
    (applyAction (.AddChar 'a')
        { mode := .Insert, cursor := { x := 79, y := 5 }, size := (80, 24) }).editor.cursor
      = { x := 80, y := 5 } :=
  ⟨(claim_C1_addChar { mode := .Insert, cursor := { x := 80, y := 5 }, size := (80, 24) }
      'a' (by decide) (by decide)).2.1 (by decide),
   (claim_C1_addChar { mode := .Insert, cursor := { x := 80, y := 5 }, size := (80, 24) }
      'a' (by decide) (by decide)).1,
   (claim_C1_addChar { mode := .Insert, cursor := { x := 79, y := 5 }, size := (80, 24) }
      'a' (by decide) (by decide)).2.2.1 (by decide)⟩

/-- Claim C2: in the status-line variant, for every terminal width ≥ 40
(and height ≥ 2 — the status line sits one row above the bottom), every mode
and every `u16` cursor position, `draw_statusline` computes all its segments
with no `u16` underflow (no panic), and the mode-label segment width plus the
filler segment width plus the position segment width plus the two fixed
separator cells sum exactly to the terminal width. -/
theorem claim_C2_statusline_widths (w h x y : Nat) (m : Mode)
    (hw : 40 ≤ w) (hh : 2 ≤ h) (hx : x ≤ 65535) (hy : y ≤ 65535) :
    ∃ filler,
      draw_statusline (w, h) m { x := x, y := y }
          = some (mode_str m, filler, pos_str { x := x, y := y }) ∧
      (mode_str m).length + filler.length + (pos_str { x := x, y := y }).length + 2 = w := by
  have hp : (pos_str { x := x, y := y }).length ≤ 12 := pos_str_length_le _ hx hy
  have hm : (mode_str m).length = 8 := mode_str_length m
  have e1 : u16_checked_sub h 2 = some (h - 2) := by
    unfold u16_checked_sub
    rw [if_pos (by omega)]
  have e2 : u16_checked_sub w (mode_str m).length = some (w - (mode_str m).length) := by
    unfold u16_checked_sub
    rw [if_pos (by omega)]
  have e3 : u16_checked_sub (w - (mode_str m).length) (pos_str { x := x, y := y }).length
      = some (w - (mode_str m).length - (pos_str { x := x, y := y }).length) := by
    unfold u16_checked_sub
    rw [if_pos (by omega)]
  have e4 : u16_checked_sub
        (w - (mode_str m).length - (pos_str { x := x, y := y }).length) 2
      = some (w - (mode_str m).length - (pos_str { x := x, y := y }).length - 2) := by
    unfold u16_checked_sub
    rw [if_pos (by omega)]
  refine ⟨pad_left_align file_label
      (w - (mode_str m).length - (pos_str { x := x, y := y }).length - 2), ?_, ?_⟩
  · unfold draw_statusline
    simp only [e1, e2, e3, e4]
  · rw [pad_left_align_length]
    have hfile : file_label.length = 12 := rfl
    omega

theorem claim_C2_witness :
    (draw_statusline (40, 24) .Normal { x := 65535, y := 65535 }
        = some (" NORMAL ", " src/main.rs      ", " 65536:65536")) ∧
    (∃ filler,
      draw_statusline (40, 24) .Normal { x := 65535, y := 65535 }
          = some (mode_str .Normal, filler, pos_str { x := 65535, y := 65535 }) ∧
      (mode_str .Normal).length + filler.length
          + (pos_str { x := 65535, y := 65535 }).length + 2 = 40) :=
  ⟨by decide,
   claim_C2_statusline_widths 40 24 65535 65535 .Normal
     (by decide) (by decide) (by decide) (by decide)⟩

/-- Claim C7: mode and cursor visual style stay synchronized in every
reachable state — the startup sequence sets the initial mode's style, every
`ChangeMode m` step issues the style-change effect for `m` in the very step
that sets the mode to `m`, and hence along any run the most recently set
cursor style is exactly the current mode's style (never stale). -/
theorem claim_C7_style_mode_sync :
    (∀ sz : Nat × Nat, startup_effects (Editor.new sz)
        = [.EnterAlternateScreen, .ClearAll, .SetCursorStyle .SteadyBlock]) ∧
    (∀ (m : Mode) (ed : Editor),
        applyAction (.ChangeMode m) ed
          = { editor := { ed with mode := m },
              effects := [.SetCursorStyle m.get_cursor_style], quit := false }) ∧
    (∀ (sz : Nat × Nat) (es : List Event),
        trace_style none (run (Editor.new sz) es).2
          = some ((run (Editor.new sz) es).1.mode.get_cursor_style)) := by
  refine ⟨fun sz => rfl, fun m ed => rfl, fun sz es => ?_⟩
  show trace_style none
      (startup_effects (Editor.new sz) ++ (run_events (Editor.new sz) es).2)
    = some ((run_events (Editor.new sz) es).1.mode.get_cursor_style)
  rw [trace_style_append]
  exact run_events_style (Editor.new sz) es

lemma run_events_step_eq (ed ed' : Editor) (effs : List Effect) (e : Event)
    (es : List Event) (a : Action)
    (h : (handle_event ed e).2 = .ok (some a))
    (ha : applyAction a ed = { editor := ed', effects := effs, quit := false }) :
    run_events ed (e :: es)
      = ((run_events ed' es).1, effs ++ (run_events ed' es).2) := by
  rw [run_events]
  simp only [h, ha]
  rfl

/-- Claim C9, end-to-end: starting in Normal mode at `(0, 0)` (any captured
width ≥ 5), the key `i` switches to Insert mode with a cursor-style update;
the keys `h`, `e`, `l`, `l`, `o` move the cursor to `(5, 0)` while queuing the
five characters left-to-right at columns 0–4 of row 0; `Esc` returns to
Normal mode; and `q` terminates the loop, so any further events are never
processed. -/
theorem claim_C9_end_to_end (w h : Nat) (hw : 5 ≤ w) :
    (run_events (Editor.new (w, h)) [.Key (.Char 'i')]
       = ({ mode := .Insert, cursor := { x := 0, y := 0 }, size := (w, h) },
          [.SetCursorStyle .BlinkingBar])) ∧
    (run_events (Editor.new (w, h))
        [.Key (.Char 'i'), .Key (.Char 'h'), .Key (.Char 'e'), .Key (.Char 'l'),
         .Key (.Char 'l'), .Key (.Char 'o')]
       = ({ mode := .Insert, cursor := { x := 5, y := 0 }, size := (w, h) },
          [.SetCursorStyle .BlinkingBar, .MoveTo 0 0, .Print 'h', .MoveTo 1 0, .Print 'e',
           .MoveTo 2 0, .Print 'l', .MoveTo 3 0, .Print 'l', .MoveTo 4 0, .Print 'o'])) ∧
    (run_events (Editor.new (w, h))
        [.Key (.Char 'i'), .Key (.Char 'h'), .Key (.Char 'e'), .Key (.Char 'l'),
         .Key (.Char 'l'), .Key (.Char 'o'), .Key .Esc]
       = ({ mode := .Normal, cursor := { x := 5, y := 0 }, size := (w, h) },
          [.SetCursorStyle .BlinkingBar, .MoveTo 0 0, .Print 'h', .MoveTo 1 0, .Print 'e',
           .MoveTo 2 0, .Print 'l', .MoveTo 3 0, .Print 'l', .MoveTo 4 0, .Print 'o',
           .SetCursorStyle .SteadyBlock])) ∧
    (∀ extra : List Event,
       run_events (Editor.new (w, h)) (hello_events ++ extra)
         = ({ mode := .Normal, cursor := { x := 5, y := 0 }, size := (w, h) },
            [.SetCursorStyle .BlinkingBar, .MoveTo 0 0, .Print 'h', .MoveTo 1 0, .Print 'e',
             .MoveTo 2 0, .Print 'l', .MoveTo 3 0, .Print 'l', .MoveTo 4 0, .Print 'o',
             .SetCursorStyle .SteadyBlock])) := by
  have addstep : ∀ (x0 : Nat) (c : Char), x0 < 5 →
      applyAction (.AddChar c)
          { mode := .Insert, cursor := { x := x0, y := 0 }, size := (w, h) }
        = { editor := { mode := .Insert, cursor := { x := x0 + 1, y := 0 }, size := (w, h) },
            effects := [.MoveTo x0 0, .Print c], quit := false } := by
    intro x0 c hx0
    simp only [applyAction]
    rw [u16_succ_small x0 (by omega)]
    rw [if_neg (by omega : ¬ x0 + 1 > w)]
  have chain6 : ∀ ts : List Event,
      run_events (Editor.new (w, h))
          (.Key (.Char 'i') :: .Key (.Char 'h') :: .Key (.Char 'e') :: .Key (.Char 'l')
            :: .Key (.Char 'l') :: .Key (.Char 'o') :: ts)
        = ((run_events { mode := .Insert, cursor := { x := 5, y := 0 }, size := (w, h) } ts).1,
           [.SetCursorStyle .BlinkingBar, .MoveTo 0 0, .Print 'h', .MoveTo 1 0, .Print 'e',
            .MoveTo 2 0, .Print 'l', .MoveTo 3 0, .Print 'l', .MoveTo 4 0, .Print 'o']
             ++ (run_events { mode := .Insert, cursor := { x := 5, y := 0 }, size := (w, h) } ts).2) := by
    intro ts
    rw [run_events_step_eq (Editor.new (w, h))
        { mode := .Insert, cursor := { x := 0, y := 0 }, size := (w, h) }
        [.SetCursorStyle .BlinkingBar] (.Key (.Char 'i')) _ (.ChangeMode .Insert) rfl rfl]
    rw [run_events_step_eq { mode := .Insert, cursor := { x := 0, y := 0 }, size := (w, h) }
        { mode := .Insert, cursor := { x := 1, y := 0 }, size := (w, h) }
        [.MoveTo 0 0, .Print 'h'] (.Key (.Char 'h')) _ (.AddChar 'h') rfl (addstep 0 'h' (by omega))]
    rw [run_events_step_eq { mode := .Insert, cursor := { x := 1, y := 0 }, size := (w, h) }
        { mode := .Insert, cursor := { x := 2, y := 0 }, size := (w, h) }
        [.MoveTo 1 0, .Print 'e'] (.Key (.Char 'e')) _ (.AddChar 'e') rfl (addstep 1 'e' (by omega))]
    rw [run_events_step_eq { mode := .Insert, cursor := { x := 2, y := 0 }, size := (w, h) }
        { mode := .Insert, cursor := { x := 3, y := 0 }, size := (w, h) }
        [.MoveTo 2 0, .Print 'l'] (.Key (.Char 'l')) _ (.AddChar 'l') rfl (addstep 2 'l' (by omega))]
    rw [run_events_step_eq { mode := .Insert, cursor := { x := 3, y := 0 }, size := (w, h) }
        { mode := .Insert, cursor := { x := 4, y := 0 }, size := (w, h) }
        [.MoveTo 3 0, .Print 'l'] (.Key (.Char 'l')) _ (.AddChar 'l') rfl (addstep 3 'l' (by omega))]
    rw [run_events_step_eq { mode := .Insert, cursor := { x := 4, y := 0 }, size := (w, h) }
        { mode := .Insert, cursor := { x := 5, y := 0 }, size := (w, h) }
        [.MoveTo 4 0, .Print 'o'] (.Key (.Char 'o')) _ (.AddChar 'o') rfl (addstep 4 'o' (by omega))]
    rfl
  refine ⟨?_, ?_, ?_, ?_⟩
  · rw [run_events_step_eq (Editor.new (w, h))
        { mode := .Insert, cursor := { x := 0, y := 0 }, size := (w, h) }
        [.SetCursorStyle .BlinkingBar] (.Key (.Char 'i')) [] (.ChangeMode .Insert) rfl rfl]
    rfl
  · rw [chain6 []]
    rfl
  · rw [chain6 [.Key .Esc]]
    rw [run_events_step_eq
        { mode := .Insert, cursor := { x := 5, y := 0 }, size := (w, h) }
        { mode := .Normal, cursor := { x := 5, y := 0 }, size := (w, h) }
        [.SetCursorStyle .SteadyBlock] (.Key .Esc) [] (.ChangeMode .Normal) rfl rfl]
    rfl
  · intro extra
    simp only [hello_events, List.cons_append, List.nil_append]
    rw [chain6 (.Key .Esc :: .Key (.Char 'q') :: extra)]
    rw [run_events_step_eq
        { mode := .Insert, cursor := { x := 5, y := 0 }, size := (w, h) }
        { mode := .Normal, cursor := { x := 5, y := 0 }, size := (w, h) }
        [.SetCursorStyle .SteadyBlock] (.Key .Esc) _ (.ChangeMode .Normal) rfl rfl]
    rw [run_events_stop
        { mode := .Normal, cursor := { x := 5, y := 0 }, size := (w, h) }
        (.Key (.Char 'q')) extra rfl]
    rfl

theorem claim_C9_witness :
    run_events (Editor.new (80, 24)) (hello_events ++ [.Key (.Char 'z')])
      = ({ mode := .Normal, cursor := { x := 5, y := 0 }, size := (80, 24) },
         [.SetCursorStyle .BlinkingBar, .MoveTo 0 0, .Print 'h', .MoveTo 1 0, .Print 'e',
          .MoveTo 2 0, .Print 'l', .MoveTo 3 0, .Print 'l', .MoveTo 4 0, .Print 'o',
          .SetCursorStyle .SteadyBlock]) :=
  (claim_C9_end_to_end 80 24 (by decide)).2.2.2 [.Key (.Char 'z')]

end Muelsyse
